import Mathlib

/-!
Verification development for the `nostr` relay (Rust sources under `src/`).

The definitions below are a shallow embedding of the repository's code:

* `src/event.rs`    — `Event`, `EventKind`, `UnsignedEvent::new` (id computation),
  `UnsignedEvent::sign`;
* `src/req.rs`      — `Filter`, `Req` and their serde encodings;
* `src/message.rs`  — `ClientMessage` / `ServerMessage` and their tagged-array
  JSON codecs (custom serde visitors);
* `src/server.rs`   — the relay engine: subscription registry,
  `process_req_message`, `process_event_message`, `process_close_message`,
  `match_event`, `contains`;
* `src/error.rs`    — `NostrError` (only variant: `InvalidMessage`).

JSON wire values are modelled as trees (`Json`); serde_json's behaviour on
those trees (positional sequence visitors, struct field maps that ignore
unknown keys and reject duplicates, integer range checks) is translated
faithfully.  Rust panics (`unwrap`, the `panic!` arm of
`From<u16> for EventKind`) are modelled as a distinct `panicked` outcome,
never as an error value.  SHA-256 is implemented in full so that the id
computation of `UnsignedEvent::new` is executable.
-/

namespace Nostr

/-- JSON value trees, the wire universe both serde codecs operate on.  Numbers
are modelled as integers: every number the repository reads or writes is an
integer type (`i64`, `u16`, `u32`, `usize`). -/
inductive Json where
  | null
  | bool (b : Bool)
  | num (n : Int)
  | str (s : String)
  | arr (elems : List Json)
  | obj (fields : List (String × Json))

/-- Read a JSON string (serde `next_element::<String>` / `::<&str>` succeeds
exactly on strings). -/
def asStr : Json → Option String
  | .str s => some s
  | _ => none

/-- Read a JSON boolean. -/
def asBool : Json → Option Bool
  | .bool b => some b
  | _ => none

/-- `EventKind` from src/event.rs: only kinds 0 (set_metadata) and 1
(text_note) exist. -/
inductive EventKind where
  | metaData
  | textNote
  deriving DecidableEq

/-- `From<EventKind> for u16` (src/event.rs lines 101-108). -/
def eventKindToU16 : EventKind → Nat
  | .metaData => 0
  | .textNote => 1

/-- Outcome of `From<u16> for EventKind` (src/event.rs lines 110-118): the
`_ => panic!("unknown event kind")` arm is a Rust panic, not an error value. -/
inductive KindConv where
  | found (k : EventKind)
  | panicked
  deriving DecidableEq

/-- `From<u16> for EventKind` (src/event.rs lines 110-118). -/
def eventKindFromU16 (k : Nat) : KindConv :=
  if k = 0 then .found .metaData
  else if k = 1 then .found .textNote
  else .panicked

/-- `Event` from src/event.rs.  `created_at` is an `i64`, modelled as `Int`
(its 64-bit range is enforced where the code's types enforce it: at decode
time). -/
structure Event where
  id : String
  pubkey : String
  created_at : Int
  kind : EventKind
  tags : List (List String)
  content : String
  sig : String
  deriving DecidableEq

/-- `Filter` from src/req.rs: eight optional fields; `kinds` holds `u32`
values and `limit` a `usize`, both modelled as `Nat`. -/
structure Filter where
  ids : Option (List String)
  authors : Option (List String)
  kinds : Option (List Nat)
  e_tags : Option (List String)
  p_tags : Option (List String)
  since : Option Int
  until_ : Option Int
  limit : Option Nat
  deriving DecidableEq

/-- `Filter::new` (src/req.rs lines 94-105): all eight fields unset. -/
def Filter.new : Filter :=
  ⟨none, none, none, none, none, none, none, none⟩

/-- `Req` from src/req.rs. -/
structure Req where
  id : String
  filter : Filter
  deriving DecidableEq

/-- `ClientMessage` from src/message.rs. -/
inductive ClientMessage where
  | req (r : Req)
  | event (e : Event)
  | close (id : String)
  deriving DecidableEq

/-- `ServerMessageEvent` from src/message.rs. -/
structure ServerMessageEvent where
  subscribe_id : String
  event : Event
  deriving DecidableEq

/-- `ServerOk` from src/message.rs. -/
structure ServerOk where
  event_id : String
  accepted : Bool
  message : String
  deriving DecidableEq

/-- `Closed` from src/message.rs. -/
structure Closed where
  subscribe_id : String
  message : String
  deriving DecidableEq

/-- `ServerMessage` from src/message.rs. -/
inductive ServerMessage where
  | event (e : ServerMessageEvent)
  | ok (o : ServerOk)
  | eose (id : String)
  | closed (c : Closed)
  | notice (message : String)
  deriving DecidableEq

/-! ## Encoders (serde `Serialize` impls, at the JSON tree level) -/

/-- serde encoding of a `Vec<String>`. -/
def encodeStringList (l : List String) : Json :=
  .arr (l.map .str)

/-- serde encoding of `tags : Vec<Vec<String>>`. -/
def encodeTags (tags : List (List String)) : Json :=
  .arr (tags.map encodeStringList)

/-- serde encoding of a `Vec<u32>` / the `kinds` filter field. -/
def encodeNatList (l : List Nat) : Json :=
  .arr (l.map (fun (n : Nat) => Json.num (n : Int)))

/-- Derived `Serialize` for `Event` (src/event.rs): a JSON object with the
seven fields in declaration order; `kind` serializes as its `u16` value
(custom `Serialize for EventKind`, src/event.rs lines 120-127). -/
def encodeEvent (e : Event) : Json :=
  .obj [("id", .str e.id), ("pubkey", .str e.pubkey),
        ("created_at", .num e.created_at),
        ("kind", .num (eventKindToU16 e.kind)),
        ("tags", encodeTags e.tags),
        ("content", .str e.content), ("sig", .str e.sig)]

/-- Emit a key/value pair only when the optional field is set
(`#[serde(skip_serializing_if = "Option::is_none")]` on every `Filter`
field, src/req.rs lines 64-90). -/
def optField (k : String) (v : Option Json) (rest : List (String × Json)) :
    List (String × Json) :=
  match v with
  | none => rest
  | some j => (k, j) :: rest

/-- The field list of the derived `Serialize` for `Filter` (src/req.rs):
declaration order, `e_tags`/`p_tags` renamed to `#e`/`#p`, unset fields
omitted entirely. -/
def encodeFilterFields (f : Filter) : List (String × Json) :=
  optField "ids" (f.ids.map encodeStringList)
    (optField "authors" (f.authors.map encodeStringList)
      (optField "kinds" (f.kinds.map encodeNatList)
        (optField "#e" (f.e_tags.map encodeStringList)
          (optField "#p" (f.p_tags.map encodeStringList)
            (optField "since" (f.since.map .num)
              (optField "until" (f.until_.map .num)
                (optField "limit" (f.limit.map (fun (n : Nat) => Json.num (n : Int))) [])))))))

/-- Derived `Serialize` for `Filter` (src/req.rs lines 64-90). -/
def encodeFilter (f : Filter) : Json :=
  .obj (encodeFilterFields f)

/-- `Serialize for ClientMessage` (src/message.rs lines 21-63): tagged
positional arrays `["REQ", id, filter]`, `["EVENT", event]`,
`["CLOSE", id]`. -/
def encodeClientMessage : ClientMessage → Json
  | .req r => .arr [.str "REQ", .str r.id, encodeFilter r.filter]
  | .event e => .arr [.str "EVENT", encodeEvent e]
  | .close id => .arr [.str "CLOSE", .str id]

/-- `Serialize for ServerMessage` (src/message.rs lines 181-248). -/
def encodeServerMessage : ServerMessage → Json
  | .event e => .arr [.str "EVENT", .str e.subscribe_id, encodeEvent e.event]
  | .ok o => .arr [.str "OK", .str o.event_id, .bool o.accepted, .str o.message]
  | .eose id => .arr [.str "EOSE", .str id]
  | .closed c => .arr [.str "CLOSED", .str c.subscribe_id, .str c.message]
  | .notice m => .arr [.str "NOTICE", .str m]

/-! ## Decoders (serde `Deserialize` impls, at the JSON tree level)

serde_json rejects out-of-range numbers for the fixed-width integer types,
ignores unknown struct fields, rejects duplicate struct fields, treats a
missing `Option` field as `None` and accepts `null` for an `Option` value.
A Rust panic during deserialization (`EventKind::from`) is a separate
`panicked` outcome. -/

/-- Errors of the strict positional decoders.  `malformed p` stands for a
serde error raised while reading array element `p` — either
`invalid_length(p, ..)` (element missing) or a type/shape error on the
element at position `p`; `unknownKind` is `de::Error::custom("unknown
message kind")`; `trailing` is serde_json's rejection of unconsumed array
elements; `notArray` is the type error for a non-array top level. -/
inductive DecodeError where
  | malformed (pos : Nat)
  | unknownKind
  | trailing
  | notArray
  deriving DecidableEq

/-- Result of running a decoder that may also hit a Rust panic. -/
inductive DResult (α : Type) where
  | ok (a : α)
  | err (e : DecodeError)
  | panicked

/-- serde_json's `i64` deserialization: an integral number in range. -/
def decodeI64 : Json → Option Int
  | .num n => if -9223372036854775808 ≤ n ∧ n < 9223372036854775808 then some n else none
  | _ => none

/-- serde_json's `u16` deserialization. -/
def decodeU16 : Json → Option Nat
  | .num n => if 0 ≤ n ∧ n < 65536 then some n.toNat else none
  | _ => none

/-- serde_json's `u32` deserialization. -/
def decodeU32 : Json → Option Nat
  | .num n => if 0 ≤ n ∧ n < 4294967296 then some n.toNat else none
  | _ => none

/-- serde_json's `usize` (64-bit) deserialization. -/
def decodeU64 : Json → Option Nat
  | .num n => if 0 ≤ n ∧ n < 18446744073709551616 then some n.toNat else none
  | _ => none

/-- serde deserialization of a JSON array, element by element. -/
def decodeList {α : Type} (dec : Json → Option α) : List Json → Option (List α)
  | [] => some []
  | j :: rest =>
    match dec j, decodeList dec rest with
    | some a, some r => some (a :: r)
    | _, _ => none

/-- serde deserialization of `Vec<String>`. -/
def decodeStringList : Json → Option (List String)
  | .arr xs => decodeList asStr xs
  | _ => none

/-- serde deserialization of `Vec<u32>`. -/
def decodeNatList : Json → Option (List Nat)
  | .arr xs => decodeList decodeU32 xs
  | _ => none

/-- serde deserialization of `Vec<Vec<String>>`. -/
def decodeTagsVal : Json → Option (List (List String))
  | .arr xs => decodeList decodeStringList xs
  | _ => none

/-- serde deserialization of an `Option<T>` value: `null` is `None`,
anything else must deserialize as `T`. -/
def decodeOptVal {α : Type} (dec : Json → Option α) : Json → Option (Option α)
  | .null => some none
  | j => (dec j).map some

/-- Field slots of the derived `Deserialize` for `Filter`: outer `none`
means "field not seen yet". -/
structure FSlots where
  ids : Option (Option (List String))
  authors : Option (Option (List String))
  kinds : Option (Option (List Nat))
  e_tags : Option (Option (List String))
  p_tags : Option (Option (List String))
  since : Option (Option Int)
  until_ : Option (Option Int)
  limit : Option (Option Nat)

/-- All eight `Filter` slots unseen. -/
def FSlots.empty : FSlots :=
  ⟨none, none, none, none, none, none, none, none⟩

/-- One map entry of the derived `Deserialize` for `Filter`: a known key
seen twice is a `duplicate field` error, an unknown key is ignored, a value
that does not deserialize is an error. -/
def filterStep (st : FSlots) (kv : String × Json) : Option FSlots :=
  match kv with
  | ("ids", v) =>
    match st.ids with
    | some _ => none
    | none => (decodeOptVal decodeStringList v).map
        (fun x => ⟨some x, st.authors, st.kinds, st.e_tags, st.p_tags,
                   st.since, st.until_, st.limit⟩)
  | ("authors", v) =>
    match st.authors with
    | some _ => none
    | none => (decodeOptVal decodeStringList v).map
        (fun x => ⟨st.ids, some x, st.kinds, st.e_tags, st.p_tags,
                   st.since, st.until_, st.limit⟩)
  | ("kinds", v) =>
    match st.kinds with
    | some _ => none
    | none => (decodeOptVal decodeNatList v).map
        (fun x => ⟨st.ids, st.authors, some x, st.e_tags, st.p_tags,
                   st.since, st.until_, st.limit⟩)
  | ("#e", v) =>
    match st.e_tags with
    | some _ => none
    | none => (decodeOptVal decodeStringList v).map
        (fun x => ⟨st.ids, st.authors, st.kinds, some x, st.p_tags,
                   st.since, st.until_, st.limit⟩)
  | ("#p", v) =>
    match st.p_tags with
    | some _ => none
    | none => (decodeOptVal decodeStringList v).map
        (fun x => ⟨st.ids, st.authors, st.kinds, st.e_tags, some x,
                   st.since, st.until_, st.limit⟩)
  | ("since", v) =>
    match st.since with
    | some _ => none
    | none => (decodeOptVal decodeI64 v).map
        (fun x => ⟨st.ids, st.authors, st.kinds, st.e_tags, st.p_tags,
                   some x, st.until_, st.limit⟩)
  | ("until", v) =>
    match st.until_ with
    | some _ => none
    | none => (decodeOptVal decodeI64 v).map
        (fun x => ⟨st.ids, st.authors, st.kinds, st.e_tags, st.p_tags,
                   st.since, some x, st.limit⟩)
  | ("limit", v) =>
    match st.limit with
    | some _ => none
    | none => (decodeOptVal decodeU64 v).map
        (fun x => ⟨st.ids, st.authors, st.kinds, st.e_tags, st.p_tags,
                   st.since, st.until_, some x⟩)
  | _ => some st

/-- Run `filterStep` over every entry of the JSON object. -/
def filterFold : List (String × Json) → FSlots → Option FSlots
  | [], st => some st
  | kv :: rest, st => (filterStep st kv).bind (filterFold rest)

/-- Derived `Deserialize` for `Filter` (src/req.rs lines 64-90): a JSON
object; a field never seen defaults to `None`. -/
def decodeFilterI (j : Json) : Option Filter :=
  match j with
  | .obj fs =>
    (filterFold fs FSlots.empty).map
      (fun st => ⟨st.ids.join, st.authors.join, st.kinds.join, st.e_tags.join,
                  st.p_tags.join, st.since.join, st.until_.join, st.limit.join⟩)
  | _ => none

/-- Field slots of the derived `Deserialize` for `Event`. -/
structure ESlots where
  id : Option String
  pubkey : Option String
  created_at : Option Int
  kind : Option EventKind
  tags : Option (List (List String))
  content : Option String
  sig : Option String

/-- All seven `Event` slots unseen. -/
def ESlots.empty : ESlots :=
  ⟨none, none, none, none, none, none, none⟩

/-- Three-valued decoder outcome for components that can hit the
`EventKind` panic. -/
inductive Inner (α : Type) where
  | ok (a : α)
  | fail
  | panicked

/-- Sequencing of `Inner` computations (failure and panic propagate). -/
def innerBind {α β : Type} (x : Inner α) (f : α → Inner β) : Inner β :=
  match x with
  | .ok a => f a
  | .fail => .fail
  | .panicked => .panicked

/-- One map entry of the derived `Deserialize` for `Event`.  The `kind`
entry runs `u16::deserialize` and then `EventKind::from`
(src/event.rs lines 129-137), whose unknown arm is a Rust panic. -/
def eventStep (st : ESlots) (kv : String × Json) : Inner ESlots :=
  match kv with
  | ("id", v) =>
    match st.id, asStr v with
    | some _, _ => .fail
    | none, none => .fail
    | none, some s =>
      .ok ⟨some s, st.pubkey, st.created_at, st.kind, st.tags, st.content, st.sig⟩
  | ("pubkey", v) =>
    match st.pubkey, asStr v with
    | some _, _ => .fail
    | none, none => .fail
    | none, some s =>
      .ok ⟨st.id, some s, st.created_at, st.kind, st.tags, st.content, st.sig⟩
  | ("created_at", v) =>
    match st.created_at, decodeI64 v with
    | some _, _ => .fail
    | none, none => .fail
    | none, some n =>
      .ok ⟨st.id, st.pubkey, some n, st.kind, st.tags, st.content, st.sig⟩
  | ("kind", v) =>
    match st.kind, decodeU16 v with
    | some _, _ => .fail
    | none, none => .fail
    | none, some k =>
      match eventKindFromU16 k with
      | .panicked => .panicked
      | .found ek =>
        .ok ⟨st.id, st.pubkey, st.created_at, some ek, st.tags, st.content, st.sig⟩
  | ("tags", v) =>
    match st.tags, decodeTagsVal v with
    | some _, _ => .fail
    | none, none => .fail
    | none, some t =>
      .ok ⟨st.id, st.pubkey, st.created_at, st.kind, some t, st.content, st.sig⟩
  | ("content", v) =>
    match st.content, asStr v with
    | some _, _ => .fail
    | none, none => .fail
    | none, some s =>
      .ok ⟨st.id, st.pubkey, st.created_at, st.kind, st.tags, some s, st.sig⟩
  | ("sig", v) =>
    match st.sig, asStr v with
    | some _, _ => .fail
    | none, none => .fail
    | none, some s =>
      .ok ⟨st.id, st.pubkey, st.created_at, st.kind, st.tags, st.content, some s⟩
  | _ => .ok st

/-- Run `eventStep` over every entry of the JSON object. -/
def eventFold : List (String × Json) → ESlots → Inner ESlots
  | [], st => .ok st
  | kv :: rest, st => innerBind (eventStep st kv) (eventFold rest)

/-- Derived `Deserialize` for `Event` (src/event.rs lines 77-93): all seven
fields are mandatory. -/
def decodeEventI (j : Json) : Inner Event :=
  match j with
  | .obj fs =>
    match eventFold fs ESlots.empty with
    | .fail => .fail
    | .panicked => .panicked
    | .ok st =>
      match st.id, st.pubkey, st.created_at, st.kind, st.tags, st.content, st.sig with
      | some id, some pk, some ca, some k, some tg, some ct, some sg =>
        .ok ⟨id, pk, ca, k, tg, ct, sg⟩
      | _, _, _, _, _, _, _ => .fail
  | _ => .fail

/-- Tail of a `["REQ", ..]` array (`deserialize_req`, src/message.rs lines
99-113): id at position 1, filter at position 2, then the array must end. -/
def decodeReqTail : List Json → DResult ClientMessage
  | [] => .err (.malformed 1)
  | j :: rest =>
    match asStr j with
    | none => .err (.malformed 1)
    | some id =>
      match rest with
      | [] => .err (.malformed 2)
      | jf :: rest2 =>
        match decodeFilterI jf with
        | none => .err (.malformed 2)
        | some f =>
          match rest2 with
          | [] => .ok (.req ⟨id, f⟩)
          | _ :: _ => .err .trailing

/-- Tail of an `["EVENT", ..]` array (`deserialize_event`, src/message.rs
lines 115-126). -/
def decodeEventTail : List Json → DResult ClientMessage
  | [] => .err (.malformed 1)
  | j :: rest =>
    match decodeEventI j with
    | .fail => .err (.malformed 1)
    | .panicked => .panicked
    | .ok e =>
      match rest with
      | [] => .ok (.event e)
      | _ :: _ => .err .trailing

/-- Tail of a `["CLOSE", ..]` array (`deserialize_close`, src/message.rs
lines 128-139). -/
def decodeCloseTail : List Json → DResult ClientMessage
  | [] => .err (.malformed 1)
  | j :: rest =>
    match asStr j with
    | none => .err (.malformed 1)
    | some id =>
      match rest with
      | [] => .ok (.close id)
      | _ :: _ => .err .trailing

/-- `Deserialize for ClientMessage` (`ClientMessageVisitor::visit_seq`,
src/message.rs lines 74-97): read the tag at position 0, dispatch on it,
reject unknown tags with `custom("unknown message kind")`. -/
def decodeClientJ (j : Json) : DResult ClientMessage :=
  match j with
  | .arr [] => .err (.malformed 0)
  | .arr (tag :: rest) =>
    match asStr tag with
    | none => .err (.malformed 0)
    | some t =>
      if t = "REQ" then decodeReqTail rest
      else if t = "EVENT" then decodeEventTail rest
      else if t = "CLOSE" then decodeCloseTail rest
      else .err .unknownKind
  | _ => .err .notArray

/-- Tail of a server `["EVENT", ..]` array (`deserialize_server_event`,
src/message.rs lines 286-303). -/
def decodeServerEventTail : List Json → DResult ServerMessage
  | [] => .err (.malformed 1)
  | j :: rest =>
    match asStr j with
    | none => .err (.malformed 1)
    | some sid =>
      match rest with
      | [] => .err (.malformed 2)
      | je :: rest2 =>
        match decodeEventI je with
        | .fail => .err (.malformed 2)
        | .panicked => .panicked
        | .ok e =>
          match rest2 with
          | [] => .ok (.event ⟨sid, e⟩)
          | _ :: _ => .err .trailing

/-- Tail of an `["OK", ..]` array (`deserialize_ok`, src/message.rs lines
305-326). -/
def decodeOkTail : List Json → DResult ServerMessage
  | [] => .err (.malformed 1)
  | j :: rest =>
    match asStr j with
    | none => .err (.malformed 1)
    | some eid =>
      match rest with
      | [] => .err (.malformed 2)
      | jb :: rest2 =>
        match asBool jb with
        | none => .err (.malformed 2)
        | some acc =>
          match rest2 with
          | [] => .err (.malformed 3)
          | jm :: rest3 =>
            match asStr jm with
            | none => .err (.malformed 3)
            | some msg =>
              match rest3 with
              | [] => .ok (.ok ⟨eid, acc, msg⟩)
              | _ :: _ => .err .trailing

/-- Tail of an `["EOSE", ..]` array (`deserialize_eose`, src/message.rs
lines 328-339). -/
def decodeEoseTail : List Json → DResult ServerMessage
  | [] => .err (.malformed 1)
  | j :: rest =>
    match asStr j with
    | none => .err (.malformed 1)
    | some id =>
      match rest with
      | [] => .ok (.eose id)
      | _ :: _ => .err .trailing

/-- Tail of a `["CLOSED", ..]` array (`deserialize_closed`, src/message.rs
lines 341-358). -/
def decodeClosedTail : List Json → DResult ServerMessage
  | [] => .err (.malformed 1)
  | j :: rest =>
    match asStr j with
    | none => .err (.malformed 1)
    | some sid =>
      match rest with
      | [] => .err (.malformed 2)
      | jm :: rest2 =>
        match asStr jm with
        | none => .err (.malformed 2)
        | some msg =>
          match rest2 with
          | [] => .ok (.closed ⟨sid, msg⟩)
          | _ :: _ => .err .trailing

/-- Tail of a `["NOTICE", ..]` array (`deserialize_notice`, src/message.rs
lines 360-371). -/
def decodeNoticeTail : List Json → DResult ServerMessage
  | [] => .err (.malformed 1)
  | j :: rest =>
    match asStr j with
    | none => .err (.malformed 1)
    | some msg =>
      match rest with
      | [] => .ok (.notice msg)
      | _ :: _ => .err .trailing

/-- `Deserialize for ServerMessage` (`ServerMessageVisitor::visit_seq`,
src/message.rs lines 261-284). -/
def decodeServerJ (j : Json) : DResult ServerMessage :=
  match j with
  | .arr [] => .err (.malformed 0)
  | .arr (tag :: rest) =>
    match asStr tag with
    | none => .err (.malformed 0)
    | some t =>
      if t = "EVENT" then decodeServerEventTail rest
      else if t = "OK" then decodeOkTail rest
      else if t = "EOSE" then decodeEoseTail rest
      else if t = "CLOSED" then decodeClosedTail rest
      else if t = "NOTICE" then decodeNoticeTail rest
      else .err .unknownKind
  | _ => .err .notArray

/-! ## Relay engine (src/server.rs, src/subscriber.rs)

Connections are identified by their remote-address string (`who.to_string()`
in the code).  An `UnboundedSender<Message>` is the sending end of one
connection's outbound queue; it is modelled by the identifier of the
connection whose writer task drains that queue.  A dispatch step therefore
produces a list of `(queue, wire value)` enqueues in order. -/

/-- `Subscriber` from src/subscriber.rs.  `sender` is the outbound channel
captured at `REQ` time (the queue of the connection that issued the
`REQ`). -/
structure Subscriber where
  client : String
  sender : String
  id : String
  filter : Filter
  deriving DecidableEq

/-- `RelayState.subscribers` (src/server.rs lines 30-36): connection
identifier to that connection's subscriber list, modelled as an association
list. -/
abbrev Registry := List (String × List Subscriber)

/-- `contains` from src/server.rs lines 241-247: an unset filter field is
always satisfied, a set one is exact membership. -/
def contains {α : Type} [DecidableEq α] (v : Option (List α)) (item : α) : Bool :=
  match v with
  | none => true
  | some l => decide (item ∈ l)

/-- `Option::iter().any(p)` as used on `e_tags`/`p_tags` in `match_event`
(src/server.rs lines 229-236): the iterator of `None` is empty, so `any`
is `false`. -/
def optionIterAny {α : Type} (v : Option α) (p : α → Bool) : Bool :=
  match v with
  | none => false
  | some a => p a

/-- `match_event` from src/server.rs lines 225-239, translated clause by
clause.  `filter.since.is_none() || filter.since.unwrap() < created_at`
becomes the `match` on the option, and `Vec::contains` on an inner tag
vector is exact string membership. -/
def match_event (event : Event) (filter : Filter) : Bool :=
  contains filter.ids event.id
    && contains filter.authors event.pubkey
    && contains filter.kinds (eventKindToU16 event.kind)
    && optionIterAny filter.e_tags
         (fun e => e.any (fun tag => event.tags.any (fun t => t.contains tag)))
    && optionIterAny filter.p_tags
         (fun p => p.any (fun tag => event.tags.any (fun t => t.contains tag)))
    && (match filter.since with
        | none => true
        | some s => decide (s < event.created_at))
    && (match filter.until_ with
        | none => true
        | some u => decide (u > event.created_at))

/-- `HashMap::get` on the registry model. -/
def regLookup (regs : Registry) (who : String) : Option (List Subscriber) :=
  match regs with
  | [] => none
  | kv :: rest => if kv.1 = who then some kv.2 else regLookup rest who

/-- `entry(who).or_insert(Vec::new()).push(sub)` (src/server.rs lines
178-189): append to the connection's vector, creating the entry if
absent. -/
def registryEntryPush (regs : Registry) (who : String) (s : Subscriber) :
    Registry :=
  if (regLookup regs who).isSome then
    regs.map (fun kv => if kv.1 = who then (kv.1, kv.2 ++ [s]) else kv)
  else
    regs ++ [(who, [s])]

/-- `process_req_message` (src/server.rs lines 171-192): register the
subscription under the dispatching connection; nothing is sent. -/
def process_req_message (req : Req) (regs : Registry) (who : String) :
    Registry × List (String × Json) :=
  (registryEntryPush regs who ⟨who, who, req.id, req.filter⟩, [])

/-- `process_event_message` (src/server.rs lines 194-223): first send the
`OK` through `message_sender` (the queue of the connection the `EVENT`
arrived on), then iterate every subscriber of every connection and, on a
filter match, send the bare serialized `Event` — again through
`message_sender`, not through the subscriber's own `s.sender`. -/
def process_event_message (event : Event) (regs : Registry) (who : String) :
    List (String × Json) :=
  (who, encodeServerMessage (.ok ⟨event.id, true, ""⟩)) ::
    ((regs.flatMap (fun kv => kv.2)).filterMap
      (fun s =>
        if match_event event s.filter then some (who, encodeEvent event)
        else none))

/-- `process_close_message` (src/server.rs lines 249-260): in the
dispatching connection's entry (if any), retain the subscribers whose id
differs. -/
def process_close_message (id : String) (regs : Registry) (who : String) :
    Registry :=
  regs.map (fun kv =>
    if kv.1 = who then (kv.1, kv.2.filter (fun s => s.id ≠ id)) else kv)

/-- Outcome of one inbound text frame: either a Rust panic, or the new
registry together with the enqueues performed, in order. -/
inductive StepOut where
  | panicked
  | normal (regs : Registry) (sends : List (String × Json))

/-- `process_nostr_message` (src/server.rs lines 155-169): decode, then
dispatch.  A decode error is mapped to `NostrError::InvalidMessage` and
returned before any state is touched (the caller only logs it). -/
def process_nostr_message (j : Json) (regs : Registry) (who : String) :
    StepOut :=
  match decodeClientJ j with
  | .panicked => .panicked
  | .err _ => .normal regs []
  | .ok (.req r) =>
    match process_req_message r regs who with
    | (regs2, sends) => .normal regs2 sends
  | .ok (.event e) => .normal regs (process_event_message e regs who)
  | .ok (.close id) => .normal (process_close_message id regs who) []

/-! ## Event identity and signature (src/event.rs)

`UnsignedEvent::new` hashes a serialization of the event with SHA-256 and
hex-encodes the digest.  SHA-256 is implemented in full (FIPS 180-4) so
the id computation is executable down to the digest bytes. -/

/-- 32-bit right rotation. -/
def rotr (n x : Nat) : Nat :=
  ((x >>> n) ||| (x <<< (32 - n))) % 4294967296

/-- The SHA-256 round constants. -/
def shaK : List Nat :=
  [1116352408, 1899447441, 3049323471, 3921009573, 961987163,
   1508970993, 2453635748, 2870763221, 3624381080, 310598401,
   607225278, 1426881987, 1925078388, 2162078206, 2614888103,
   3248222580, 3835390401, 4022224774, 264347078, 604807628,
   770255983, 1249150122, 1555081692, 1996064986, 2554220882,
   2821834349, 2952996808, 3210313671, 3336571891, 3584528711,
   113926993, 338241895, 666307205, 773529912, 1294757372,
   1396182291, 1695183700, 1986661051, 2177026350, 2456956037,
   2730485921, 2820302411, 3259730800, 3345764771, 3516065817,
   3600352804, 4094571909, 275423344, 430227734, 506948616,
   659060556, 883997877, 958139571, 1322822218, 1537002063,
   1747873779, 1955562222, 2024104815, 2227730452, 2361852424,
   2428436474, 2756734187, 3204031479, 3329325298]

/-- The SHA-256 initial hash value. -/
def shaH0 : List Nat :=
  [1779033703, 3144134277, 1013904242, 2773480762,
   1359893119, 2600822924, 528734635, 1541459225]

/-- Big-endian 8-byte encoding of the bit length. -/
def bigEndian8 (n : Nat) : List Nat :=
  [n >>> 56 % 256, n >>> 48 % 256, n >>> 40 % 256, n >>> 32 % 256,
   n >>> 24 % 256, n >>> 16 % 256, n >>> 8 % 256, n % 256]

/-- SHA-256 message padding. -/
def padMsg (m : List Nat) : List Nat :=
  let z := (120 - ((m.length + 1) % 64)) % 64
  m ++ [0x80] ++ List.replicate z 0 ++ bigEndian8 (8 * m.length)

/-- Split into 64-byte blocks (fuel-based so it reduces in the kernel). -/
def chunksAux : Nat → List Nat → List (List Nat)
  | _, [] => []
  | 0, _ :: _ => []
  | fuel + 1, b :: rest =>
    ((b :: rest).take 64) :: chunksAux fuel ((b :: rest).drop 64)

/-- Split a padded message into its 64-byte blocks. -/
def chunks64 (l : List Nat) : List (List Nat) :=
  chunksAux l.length l

/-- Big-endian 32-bit words of a block. -/
def bytesToWords : List Nat → List Nat
  | b0 :: b1 :: b2 :: b3 :: rest =>
    (((b0 * 256 + b1) * 256 + b2) * 256 + b3) :: bytesToWords rest
  | _ => []

/-- One step of the SHA-256 message-schedule extension. -/
def extendStep (w : List Nat) : List Nat :=
  let i := w.length
  let w15 := w.getD (i - 15) 0
  let w2 := w.getD (i - 2) 0
  let s0 := rotr 7 w15 ^^^ rotr 18 w15 ^^^ (w15 >>> 3)
  let s1 := rotr 17 w2 ^^^ rotr 19 w2 ^^^ (w2 >>> 10)
  w ++ [(w.getD (i - 16) 0 + s0 + w.getD (i - 7) 0 + s1) % 4294967296]

/-- The 64-word message schedule of a block. -/
def schedule (block : List Nat) : List Nat :=
  extendStep^[48] (bytesToWords block)

/-- One SHA-256 compression round on the eight-word working state. -/
def shaRound (st : List Nat) (kw : Nat × Nat) : List Nat :=
  match st with
  | [a, b, c, d, e, f, g, h] =>
    let s1 := rotr 6 e ^^^ rotr 11 e ^^^ rotr 25 e
    let ch := (e &&& f) ^^^ ((e ^^^ 4294967295) &&& g)
    let t1 := (h + s1 + ch + kw.1 + kw.2) % 4294967296
    let s0 := rotr 2 a ^^^ rotr 13 a ^^^ rotr 22 a
    let mj := (a &&& b) ^^^ (a &&& c) ^^^ (b &&& c)
    let t2 := (s0 + mj) % 4294967296
    [(t1 + t2) % 4294967296, a, b, c, (d + t1) % 4294967296, e, f, g]
  | _ => st

/-- SHA-256 compression of one block into the hash state. -/
def compress (hsh : List Nat) (block : List Nat) : List Nat :=
  let st := (List.zip shaK (schedule block)).foldl shaRound hsh
  (List.zip hsh st).map (fun p => (p.1 + p.2) % 4294967296)

/-- SHA-256 digest (32 bytes) of a byte list. -/
def sha256 (msg : List Nat) : List Nat :=
  ((chunks64 (padMsg msg)).foldl compress shaH0).flatMap
    (fun w => [w >>> 24 % 256, w >>> 16 % 256, w >>> 8 % 256, w % 256])

/-- Lowercase hex digit. -/
def hexChar (n : Nat) : Char :=
  if n < 10 then Char.ofNat (48 + n) else Char.ofNat (87 + n)

/-- `hex::encode`: lowercase hex of a byte list. -/
def hexEncode (bs : List Nat) : String :=
  String.mk (bs.flatMap (fun b => [hexChar (b / 16), hexChar (b % 16)]))

/-- UTF-8 encoding of one character. -/
def utf8Char (c : Char) : List Nat :=
  let n := c.toNat
  if n < 0x80 then [n]
  else if n < 0x800 then
    [0xC0 ||| (n >>> 6), 0x80 ||| (n &&& 0x3F)]
  else if n < 0x10000 then
    [0xE0 ||| (n >>> 12), 0x80 ||| ((n >>> 6) &&& 0x3F), 0x80 ||| (n &&& 0x3F)]
  else
    [0xF0 ||| (n >>> 18), 0x80 ||| ((n >>> 12) &&& 0x3F),
     0x80 ||| ((n >>> 6) &&& 0x3F), 0x80 ||| (n &&& 0x3F)]

/-- UTF-8 bytes of a string (Rust strings are UTF-8; `Sha256::update`
consumes these bytes). -/
def utf8Str (s : String) : List Nat :=
  s.data.flatMap utf8Char

/-- serde_json's escaping of one character inside a JSON string: `"` and
`\` get a backslash, the five short control escapes are used where they
exist, other control characters become `\u00XX`, everything else is
verbatim. -/
def escapeChar (c : Char) : List Char :=
  if c = '"' then ['\\', '"']
  else if c = '\\' then ['\\', '\\']
  else if c.toNat = 8 then ['\\', 'b']
  else if c.toNat = 9 then ['\\', 't']
  else if c.toNat = 10 then ['\\', 'n']
  else if c.toNat = 12 then ['\\', 'f']
  else if c.toNat = 13 then ['\\', 'r']
  else if c.toNat < 32 then
    ['\\', 'u', '0', '0', hexChar (c.toNat / 16), hexChar (c.toNat % 16)]
  else [c]

/-- serde_json's escaping applied to a character list. -/
def escapeList : List Char → List Char
  | [] => []
  | c :: rest => escapeChar c ++ escapeList rest

/-- serde_json's rendering of a string literal. -/
def renderString (s : String) : String :=
  String.mk ('"' :: escapeList s.data ++ ['"'])

/-- serde_json's compact rendering of a `Vec<String>`. -/
def renderStringVec (l : List String) : String :=
  "[" ++ String.intercalate "," (l.map renderString) ++ "]"

/-- `serde_json::to_string(&tags)` for `tags : Vec<Vec<String>>`
(compact rendering, no whitespace). -/
def renderTags (tags : List (List String)) : String :=
  "[" ++ String.intercalate "," (tags.map renderStringVec) ++ "]"

/-- The string built by the `format!` in `UnsignedEvent::new` (src/event.rs
lines 32-39): `[0,"{pubkey}",{created_at},{kind},{tags json},"{content}"]`
— `pubkey` and `content` are spliced in verbatim by `Display`, without any
JSON escaping. -/
def serialized_event (pubkey : String) (created_at : Int) (kind : EventKind)
    (tags : List (List String)) (content : String) : String :=
  "[0,\"" ++ pubkey ++ "\"," ++ toString created_at ++ ","
    ++ toString (eventKindToU16 kind) ++ "," ++ renderTags tags
    ++ ",\"" ++ content ++ "\"]"

/-- The id computed by `UnsignedEvent::new` (src/event.rs lines 22-54):
lowercase hex of the SHA-256 digest of the UTF-8 bytes of
`serialized_event`. -/
def computeId (pubkey : String) (created_at : Int) (kind : EventKind)
    (tags : List (List String)) (content : String) : String :=
  hexEncode (sha256 (utf8Str (serialized_event pubkey created_at kind tags content)))

/-- Modelled from the spec (§4.1 "builds the canonical 6-tuple exactly as
`[0, pubkey, created_at, kind, tags, content]`"): the serialization of that
6-tuple *as a JSON array*, i.e. with `pubkey` and `content` rendered as
JSON string literals (escaped), `tags` in standard JSON array encoding and
no whitespace.  This is the spec-side definition that `serialized_event`
is compared against. -/
def canonicalSerialization (pubkey : String) (created_at : Int)
    (kind : EventKind) (tags : List (List String)) (content : String) : String :=
  "[0," ++ renderString pubkey ++ "," ++ toString created_at ++ ","
    ++ toString (eventKindToU16 kind) ++ "," ++ renderTags tags
    ++ "," ++ renderString content ++ "]"

/-! ## Signing (src/event.rs `UnsignedEvent::sign`, src/error.rs)

`sign` hex-decodes the secret key and the id and parses them with
`SecretKey::parse_slice` / `Message::parse_slice`, `unwrap()`ing every
step: any failure is a Rust panic, not an error value.  `NostrError`
(src/error.rs) has the single variant `InvalidMessage`; no `InvalidKey` or
`InvalidDigest` variant exists anywhere in the crate.  The secp256k1
signing primitive itself is taken as a parameter `raw` (message bytes and
key bytes to the 64 serialized signature bytes); the control flow around
it is what is modelled from the code. -/

/-- Value of one hex digit, accepting both cases (`hex::decode`). -/
def hexDigitVal (c : Char) : Option Nat :=
  if '0' ≤ c ∧ c ≤ '9' then some (c.toNat - 48)
  else if 'a' ≤ c ∧ c ≤ 'f' then some (c.toNat - 87)
  else if 'A' ≤ c ∧ c ≤ 'F' then some (c.toNat - 55)
  else none

/-- `hex::decode` on a character list: fails on an odd length or a
non-hex character. -/
def hexDecodeList : List Char → Option (List Nat)
  | [] => some []
  | [_] => none
  | c1 :: c2 :: rest =>
    match hexDigitVal c1, hexDigitVal c2, hexDecodeList rest with
    | some h, some l, some r => some ((16 * h + l) :: r)
    | _, _, _ => none

/-- `hex::decode` of a string. -/
def hexDecode (s : String) : Option (List Nat) :=
  hexDecodeList s.data

/-- Big-endian scalar value of a byte list (`Scalar::set_b32`). -/
def bytesToScalar (bs : List Nat) : Nat :=
  bs.foldl (fun a b => 256 * a + b) 0

/-- The order of the secp256k1 group: `SecretKey::parse_slice` accepts
exactly the 32-byte scalars in `[1, n-1]`. -/
def secpOrder : Nat :=
  0xFFFFFFFFFFFFFFFFFFFFFFFFFFFFFFFEBAAEDCE6AF48A03BBFD25E8CD0364141

/-- `SecretKey::parse_slice` succeeds exactly on 32 bytes whose scalar is
nonzero and below the group order. -/
def secretKeyOk (bs : List Nat) : Bool :=
  bs.length = 32 && bytesToScalar bs ≠ 0 && bytesToScalar bs < secpOrder

/-- The error vocabulary the specification uses for `sign` (§4.1, §7).
These variants exist in the spec only — `NostrError` (src/error.rs) has no
such constructors. -/
inductive SpecSignError where
  | invalidKey
  | invalidDigest
  deriving DecidableEq

/-- Outcome of `UnsignedEvent::sign`: the code can only panic or return;
`err` is reachable only in the specification's account, never in the
model of the code. -/
inductive SignOutcome where
  | panicked
  | err (e : SpecSignError)
  | ok (sig : String)
  deriving DecidableEq

/-- `UnsignedEvent::sign` (src/event.rs lines 56-74), parameterized by the
raw secp256k1 signing function `raw` (id bytes, key bytes ↦ 64 serialized
signature bytes).  Order as in the code: decode and parse the secret key
first (both `unwrap`ed), then decode the id and parse it as a 32-byte
message (both `unwrap`ed), then sign and hex-encode. -/
def sign (raw : List Nat → List Nat → List Nat) (idHex seckeyHex : String) :
    SignOutcome :=
  match hexDecode seckeyHex with
  | none => .panicked
  | some kb =>
    if secretKeyOk kb then
      match hexDecode idHex with
      | none => .panicked
      | some ib =>
        if ib.length = 32 then .ok (hexEncode (raw ib kb))
        else .panicked
    else .panicked

/-! ## Well-formedness: the value ranges Rust's types guarantee

A "legally constructed" Rust value cannot hold an out-of-range integer;
the Lean model uses unbounded `Int`/`Nat`, so the ranges appear as
explicit, executable side conditions. -/

/-- Range of an `i64`. -/
def i64Range (n : Int) : Bool :=
  -9223372036854775808 ≤ n && n < 9223372036854775808

/-- Values a Rust `Event` can hold. -/
def eventWF (e : Event) : Bool :=
  i64Range e.created_at

/-- Values a Rust `Filter` can hold (`u32` kinds, `i64` bounds, `usize`
limit). -/
def filterWF (f : Filter) : Bool :=
  (match f.kinds with
   | none => true
   | some l => l.all (fun k => k < 4294967296)) &&
  (match f.since with
   | none => true
   | some n => i64Range n) &&
  (match f.until_ with
   | none => true
   | some n => i64Range n) &&
  (match f.limit with
   | none => true
   | some n => n < 18446744073709551616)

/-- Values a Rust `ClientMessage` can hold. -/
def clientWF : ClientMessage → Bool
  | .req r => filterWF r.filter
  | .event e => eventWF e
  | .close _ => true

/-- Values a Rust `ServerMessage` can hold. -/
def serverWF : ServerMessage → Bool
  | .event e => eventWF e.event
  | _ => true

/-! ## Round-trip lemmas for the element decoders -/

theorem decodeList_enc {α : Type} (dec : Json → Option α) (enc : α → Json)
    (l : List α) (h : ∀ a ∈ l, dec (enc a) = some a) :
    decodeList dec (l.map enc) = some l := by
  induction l with
  | nil => rfl
  | cons x xs ih =>
    simp only [List.map_cons, decodeList, h x (by simp),
      ih (fun a ha => h a (by simp [ha]))]

theorem decodeStringList_enc (l : List String) :
    decodeStringList (encodeStringList l) = some l := by
  simp only [decodeStringList, encodeStringList]
  exact decodeList_enc asStr Json.str l (fun a _ => rfl)

theorem decodeU32_enc (k : Nat) (h : k < 4294967296) :
    decodeU32 (.num (k : Int)) = some k := by
  simp [decodeU32]
  omega

theorem decodeNatList_enc (l : List Nat) (h : ∀ k ∈ l, k < 4294967296) :
    decodeNatList (encodeNatList l) = some l := by
  simp only [decodeNatList, encodeNatList]
  exact decodeList_enc decodeU32 (fun n => .num n) l
    (fun a ha => decodeU32_enc a (h a ha))

theorem decodeTagsVal_enc (tags : List (List String)) :
    decodeTagsVal (encodeTags tags) = some tags := by
  simp only [decodeTagsVal, encodeTags]
  exact decodeList_enc decodeStringList encodeStringList tags
    (fun a _ => decodeStringList_enc a)

theorem decodeI64_enc (n : Int) (h : i64Range n = true) :
    decodeI64 (.num n) = some n := by
  simp only [i64Range, Bool.and_eq_true, decide_eq_true_eq] at h
  simp [decodeI64, h.1, h.2]

theorem decodeU64_enc (n : Nat) (h : n < 18446744073709551616) :
    decodeU64 (.num (n : Int)) = some n := by
  simp [decodeU64]
  omega

theorem decodeU16_kind (k : EventKind) :
    decodeU16 (.num (eventKindToU16 k)) = some (eventKindToU16 k) := by
  cases k <;> rfl

theorem eventKindFromU16_toU16 (k : EventKind) :
    eventKindFromU16 (eventKindToU16 k) = .found k := by
  cases k <;> rfl

/-! Step lemmas: one per field key of the `Event` map visitor, stated on an
explicit slot state so they rewrite unconditionally. -/

theorem eventStep_id (pk : Option String) (ca : Option Int)
    (kd : Option EventKind) (tg : Option (List (List String)))
    (ct sg : Option String) (s : String) :
    eventStep ⟨none, pk, ca, kd, tg, ct, sg⟩ ("id", .str s) =
      .ok ⟨some s, pk, ca, kd, tg, ct, sg⟩ := by
  simp [eventStep, asStr]

theorem eventStep_pubkey (i : Option String) (ca : Option Int)
    (kd : Option EventKind) (tg : Option (List (List String)))
    (ct sg : Option String) (s : String) :
    eventStep ⟨i, none, ca, kd, tg, ct, sg⟩ ("pubkey", .str s) =
      .ok ⟨i, some s, ca, kd, tg, ct, sg⟩ := by
  simp [eventStep, asStr]

theorem eventStep_created_at (i pk : Option String)
    (kd : Option EventKind) (tg : Option (List (List String)))
    (ct sg : Option String) (n : Int) (hn : i64Range n = true) :
    eventStep ⟨i, pk, none, kd, tg, ct, sg⟩ ("created_at", .num n) =
      .ok ⟨i, pk, some n, kd, tg, ct, sg⟩ := by
  simp [eventStep, decodeI64_enc n hn]

theorem eventStep_kind (i pk : Option String) (ca : Option Int)
    (tg : Option (List (List String))) (ct sg : Option String)
    (k : EventKind) :
    eventStep ⟨i, pk, ca, none, tg, ct, sg⟩ ("kind", .num (eventKindToU16 k)) =
      .ok ⟨i, pk, ca, some k, tg, ct, sg⟩ := by
  simp [eventStep, decodeU16_kind, eventKindFromU16_toU16]

theorem eventStep_tags (i pk : Option String) (ca : Option Int)
    (kd : Option EventKind) (ct sg : Option String)
    (tags : List (List String)) :
    eventStep ⟨i, pk, ca, kd, none, ct, sg⟩ ("tags", encodeTags tags) =
      .ok ⟨i, pk, ca, kd, some tags, ct, sg⟩ := by
  simp [eventStep, decodeTagsVal_enc]

theorem eventStep_content (i pk : Option String) (ca : Option Int)
    (kd : Option EventKind) (tg : Option (List (List String)))
    (sg : Option String) (s : String) :
    eventStep ⟨i, pk, ca, kd, tg, none, sg⟩ ("content", .str s) =
      .ok ⟨i, pk, ca, kd, tg, some s, sg⟩ := by
  simp [eventStep, asStr]

theorem eventStep_sig (i pk : Option String) (ca : Option Int)
    (kd : Option EventKind) (tg : Option (List (List String)))
    (ct : Option String) (s : String) :
    eventStep ⟨i, pk, ca, kd, tg, ct, none⟩ ("sig", .str s) =
      .ok ⟨i, pk, ca, kd, tg, ct, some s⟩ := by
  simp [eventStep, asStr]

theorem innerBind_ok {α β : Type} (a : α) (f : α → Inner β) :
    innerBind (.ok a) f = f a := rfl

theorem decodeEventI_enc (e : Event) (h : eventWF e = true) :
    decodeEventI (encodeEvent e) = .ok e := by
  obtain ⟨id, pk, ca, k, tg, ct, sg⟩ := e
  have hca : i64Range ca = true := h
  simp only [decodeEventI, encodeEvent]
  rw [eventFold, ESlots.empty, eventStep_id, innerBind_ok]
  rw [eventFold, eventStep_pubkey, innerBind_ok]
  rw [eventFold, eventStep_created_at _ _ _ _ _ _ ca hca, innerBind_ok]
  rw [eventFold, eventStep_kind, innerBind_ok]
  rw [eventFold, eventStep_tags, innerBind_ok]
  rw [eventFold, eventStep_content, innerBind_ok]
  rw [eventFold, eventStep_sig, innerBind_ok]
  rw [eventFold]

/-! Step and fold lemmas for the `Filter` map visitor, one pair per field. -/

theorem join_map_some {α : Type} (o : Option α) : (o.map some).join = o := by
  cases o <;> rfl

theorem decodeOptVal_arr {α : Type} (dec : Json → Option α) (xs : List Json) :
    decodeOptVal dec (.arr xs) = (dec (.arr xs)).map some := rfl

theorem decodeOptVal_num {α : Type} (dec : Json → Option α) (n : Int) :
    decodeOptVal dec (.num n) = (dec (.num n)).map some := rfl

theorem decodeOptVal_strings (v : List String) :
    decodeOptVal decodeStringList (encodeStringList v) = some (some v) := by
  rw [encodeStringList, decodeOptVal_arr, ← encodeStringList,
    decodeStringList_enc]
  rfl

theorem decodeOptVal_nats (v : List Nat) (hv : ∀ k ∈ v, k < 4294967296) :
    decodeOptVal decodeNatList (encodeNatList v) = some (some v) := by
  rw [encodeNatList, decodeOptVal_arr, ← encodeNatList, decodeNatList_enc v hv]
  rfl

theorem decodeOptVal_i64 (n : Int) (hn : i64Range n = true) :
    decodeOptVal decodeI64 (.num n) = some (some n) := by
  rw [decodeOptVal_num, decodeI64_enc n hn]
  rfl

theorem decodeOptVal_u64 (n : Nat) (hn : n < 18446744073709551616) :
    decodeOptVal decodeU64 (.num (n : Int)) = some (some n) := by
  rw [decodeOptVal_num, decodeU64_enc n hn]
  rfl

theorem filterStep_ids (a : Option (Option (List String)))
    (kn : Option (Option (List Nat))) (e p : Option (Option (List String)))
    (s u : Option (Option Int)) (l : Option (Option Nat)) (v : List String) :
    filterStep ⟨none, a, kn, e, p, s, u, l⟩ ("ids", encodeStringList v) =
      some ⟨some (some v), a, kn, e, p, s, u, l⟩ := by
  simp [filterStep, decodeOptVal_strings]

theorem filterFold_ids (o : Option (List String))
    (rest : List (String × Json)) (a : Option (Option (List String)))
    (kn : Option (Option (List Nat))) (e p : Option (Option (List String)))
    (s u : Option (Option Int)) (l : Option (Option Nat)) :
    filterFold (optField "ids" (o.map encodeStringList) rest)
        ⟨none, a, kn, e, p, s, u, l⟩ =
      filterFold rest ⟨o.map some, a, kn, e, p, s, u, l⟩ := by
  cases o with
  | none => rfl
  | some v =>
    simp only [Option.map_some', optField, filterFold, filterStep_ids,
      Option.some_bind]

theorem filterStep_authors (i : Option (Option (List String)))
    (kn : Option (Option (List Nat))) (e p : Option (Option (List String)))
    (s u : Option (Option Int)) (l : Option (Option Nat)) (v : List String) :
    filterStep ⟨i, none, kn, e, p, s, u, l⟩ ("authors", encodeStringList v) =
      some ⟨i, some (some v), kn, e, p, s, u, l⟩ := by
  simp [filterStep, decodeOptVal_strings]

theorem filterFold_authors (o : Option (List String))
    (rest : List (String × Json)) (i : Option (Option (List String)))
    (kn : Option (Option (List Nat))) (e p : Option (Option (List String)))
    (s u : Option (Option Int)) (l : Option (Option Nat)) :
    filterFold (optField "authors" (o.map encodeStringList) rest)
        ⟨i, none, kn, e, p, s, u, l⟩ =
      filterFold rest ⟨i, o.map some, kn, e, p, s, u, l⟩ := by
  cases o with
  | none => rfl
  | some v =>
    simp only [Option.map_some', optField, filterFold, filterStep_authors,
      Option.some_bind]

theorem filterStep_kinds (i a : Option (Option (List String)))
    (e p : Option (Option (List String))) (s u : Option (Option Int))
    (l : Option (Option Nat)) (v : List Nat)
    (hv : ∀ k ∈ v, k < 4294967296) :
    filterStep ⟨i, a, none, e, p, s, u, l⟩ ("kinds", encodeNatList v) =
      some ⟨i, a, some (some v), e, p, s, u, l⟩ := by
  simp [filterStep, decodeOptVal_nats v hv]

theorem filterFold_kinds (o : Option (List Nat))
    (ho : ∀ v, o = some v → ∀ k ∈ v, k < 4294967296)
    (rest : List (String × Json)) (i a : Option (Option (List String)))
    (e p : Option (Option (List String))) (s u : Option (Option Int))
    (l : Option (Option Nat)) :
    filterFold (optField "kinds" (o.map encodeNatList) rest)
        ⟨i, a, none, e, p, s, u, l⟩ =
      filterFold rest ⟨i, a, o.map some, e, p, s, u, l⟩ := by
  cases o with
  | none => rfl
  | some v =>
    simp only [Option.map_some', optField, filterFold,
      filterStep_kinds i a e p s u l v (ho v rfl), Option.some_bind]

theorem filterStep_e_tags (i a : Option (Option (List String)))
    (kn : Option (Option (List Nat))) (p : Option (Option (List String)))
    (s u : Option (Option Int)) (l : Option (Option Nat)) (v : List String) :
    filterStep ⟨i, a, kn, none, p, s, u, l⟩ ("#e", encodeStringList v) =
      some ⟨i, a, kn, some (some v), p, s, u, l⟩ := by
  simp [filterStep, decodeOptVal_strings]

theorem filterFold_e_tags (o : Option (List String))
    (rest : List (String × Json)) (i a : Option (Option (List String)))
    (kn : Option (Option (List Nat))) (p : Option (Option (List String)))
    (s u : Option (Option Int)) (l : Option (Option Nat)) :
    filterFold (optField "#e" (o.map encodeStringList) rest)
        ⟨i, a, kn, none, p, s, u, l⟩ =
      filterFold rest ⟨i, a, kn, o.map some, p, s, u, l⟩ := by
  cases o with
  | none => rfl
  | some v =>
    simp only [Option.map_some', optField, filterFold, filterStep_e_tags,
      Option.some_bind]

theorem filterStep_p_tags (i a : Option (Option (List String)))
    (kn : Option (Option (List Nat))) (e : Option (Option (List String)))
    (s u : Option (Option Int)) (l : Option (Option Nat)) (v : List String) :
    filterStep ⟨i, a, kn, e, none, s, u, l⟩ ("#p", encodeStringList v) =
      some ⟨i, a, kn, e, some (some v), s, u, l⟩ := by
  simp [filterStep, decodeOptVal_strings]

theorem filterFold_p_tags (o : Option (List String))
    (rest : List (String × Json)) (i a : Option (Option (List String)))
    (kn : Option (Option (List Nat))) (e : Option (Option (List String)))
    (s u : Option (Option Int)) (l : Option (Option Nat)) :
    filterFold (optField "#p" (o.map encodeStringList) rest)
        ⟨i, a, kn, e, none, s, u, l⟩ =
      filterFold rest ⟨i, a, kn, e, o.map some, s, u, l⟩ := by
  cases o with
  | none => rfl
  | some v =>
    simp only [Option.map_some', optField, filterFold, filterStep_p_tags,
      Option.some_bind]

theorem filterStep_since (i a : Option (Option (List String)))
    (kn : Option (Option (List Nat))) (e p : Option (Option (List String)))
    (u : Option (Option Int)) (l : Option (Option Nat)) (n : Int)
    (hn : i64Range n = true) :
    filterStep ⟨i, a, kn, e, p, none, u, l⟩ ("since", .num n) =
      some ⟨i, a, kn, e, p, some (some n), u, l⟩ := by
  simp [filterStep, decodeOptVal_i64 n hn]

theorem filterFold_since (o : Option Int)
    (ho : ∀ n, o = some n → i64Range n = true)
    (rest : List (String × Json)) (i a : Option (Option (List String)))
    (kn : Option (Option (List Nat))) (e p : Option (Option (List String)))
    (u : Option (Option Int)) (l : Option (Option Nat)) :
    filterFold (optField "since" (o.map .num) rest)
        ⟨i, a, kn, e, p, none, u, l⟩ =
      filterFold rest ⟨i, a, kn, e, p, o.map some, u, l⟩ := by
  cases o with
  | none => rfl
  | some n =>
    simp only [Option.map_some', optField, filterFold,
      filterStep_since i a kn e p u l n (ho n rfl), Option.some_bind]

theorem filterStep_until (i a : Option (Option (List String)))
    (kn : Option (Option (List Nat))) (e p : Option (Option (List String)))
    (s : Option (Option Int)) (l : Option (Option Nat)) (n : Int)
    (hn : i64Range n = true) :
    filterStep ⟨i, a, kn, e, p, s, none, l⟩ ("until", .num n) =
      some ⟨i, a, kn, e, p, s, some (some n), l⟩ := by
  simp [filterStep, decodeOptVal_i64 n hn]

theorem filterFold_until (o : Option Int)
    (ho : ∀ n, o = some n → i64Range n = true)
    (rest : List (String × Json)) (i a : Option (Option (List String)))
    (kn : Option (Option (List Nat))) (e p : Option (Option (List String)))
    (s : Option (Option Int)) (l : Option (Option Nat)) :
    filterFold (optField "until" (o.map .num) rest)
        ⟨i, a, kn, e, p, s, none, l⟩ =
      filterFold rest ⟨i, a, kn, e, p, s, o.map some, l⟩ := by
  cases o with
  | none => rfl
  | some n =>
    simp only [Option.map_some', optField, filterFold,
      filterStep_until i a kn e p s l n (ho n rfl), Option.some_bind]

theorem filterStep_limit (i a : Option (Option (List String)))
    (kn : Option (Option (List Nat))) (e p : Option (Option (List String)))
    (s u : Option (Option Int)) (n : Nat)
    (hn : n < 18446744073709551616) :
    filterStep ⟨i, a, kn, e, p, s, u, none⟩ ("limit", .num (n : Int)) =
      some ⟨i, a, kn, e, p, s, u, some (some n)⟩ := by
  simp [filterStep, decodeOptVal_u64 n hn]

theorem filterFold_limit (o : Option Nat)
    (ho : ∀ n, o = some n → n < 18446744073709551616)
    (rest : List (String × Json)) (i a : Option (Option (List String)))
    (kn : Option (Option (List Nat))) (e p : Option (Option (List String)))
    (s u : Option (Option Int)) :
    filterFold (optField "limit" (o.map (fun (n : Nat) => Json.num (n : Int))) rest)
        ⟨i, a, kn, e, p, s, u, none⟩ =
      filterFold rest ⟨i, a, kn, e, p, s, u, o.map some⟩ := by
  cases o with
  | none => rfl
  | some n =>
    simp only [Option.map_some', optField, filterFold,
      filterStep_limit i a kn e p s u n (ho n rfl), Option.some_bind]

theorem decodeFilterI_enc (f : Filter) (h : filterWF f = true) :
    decodeFilterI (encodeFilter f) = some f := by
  obtain ⟨i, a, kn, e, p, s, u, l⟩ := f
  simp only [filterWF, Bool.and_eq_true] at h
  obtain ⟨⟨⟨hkn, hs⟩, hu⟩, hl⟩ := h
  have hkn2 : ∀ v, kn = some v → ∀ k ∈ v, k < 4294967296 := by
    intro v hv
    subst hv
    simpa using hkn
  have hs2 : ∀ n, s = some n → i64Range n = true := by
    intro n hn
    subst hn
    exact hs
  have hu2 : ∀ n, u = some n → i64Range n = true := by
    intro n hn
    subst hn
    exact hu
  have hl2 : ∀ n, l = some n → n < 18446744073709551616 := by
    intro n hn
    subst hn
    simpa using hl
  simp only [decodeFilterI, encodeFilter, encodeFilterFields]
  rw [FSlots.empty, filterFold_ids, filterFold_authors,
    filterFold_kinds kn hkn2, filterFold_e_tags, filterFold_p_tags,
    filterFold_since s hs2, filterFold_until u hu2, filterFold_limit l hl2,
    filterFold]
  simp only [Option.map_some', join_map_some]

theorem decodeClientJ_enc (m : ClientMessage) (h : clientWF m = true) :
    decodeClientJ (encodeClientMessage m) = .ok m := by
  cases m with
  | close id => rfl
  | event e =>
    show decodeEventTail [encodeEvent e] = .ok (.event e)
    rw [decodeEventTail, decodeEventI_enc e h]
  | req r =>
    show decodeReqTail [.str r.id, encodeFilter r.filter] = .ok (.req r)
    rw [decodeReqTail]
    dsimp only [asStr]
    rw [decodeFilterI_enc r.filter h]

theorem decodeServerJ_enc (m : ServerMessage) (h : serverWF m = true) :
    decodeServerJ (encodeServerMessage m) = .ok m := by
  cases m with
  | event e =>
    show decodeServerEventTail [.str e.subscribe_id, encodeEvent e.event]
        = .ok (.event e)
    rw [decodeServerEventTail]
    dsimp only [asStr]
    rw [decodeEventI_enc e.event h]
  | ok o => rfl
  | eose id => rfl
  | closed c => rfl
  | notice msg => rfl

/-! ## Key presence in an encoded `Filter` -/

/-- Whether a JSON object carries the key `k`. -/
def hasKey (j : Json) (k : String) : Bool :=
  match j with
  | .obj fs => fs.any (fun kv => kv.1 == k)
  | _ => false

theorem any_optField (k k2 : String) (o : Option Json)
    (rest : List (String × Json)) :
    (optField k2 o rest).any (fun kv => kv.1 == k) =
      ((o.isSome && (k2 == k)) || rest.any (fun kv => kv.1 == k)) := by
  cases o <;> simp [optField]

theorem hasKey_encodeFilter (f : Filter) :
    hasKey (encodeFilter f) "ids" = f.ids.isSome ∧
    hasKey (encodeFilter f) "authors" = f.authors.isSome ∧
    hasKey (encodeFilter f) "kinds" = f.kinds.isSome ∧
    hasKey (encodeFilter f) "#e" = f.e_tags.isSome ∧
    hasKey (encodeFilter f) "#p" = f.p_tags.isSome ∧
    hasKey (encodeFilter f) "since" = f.since.isSome ∧
    hasKey (encodeFilter f) "until" = f.until_.isSome ∧
    hasKey (encodeFilter f) "limit" = f.limit.isSome := by
  refine ⟨?_, ?_, ?_, ?_, ?_, ?_, ?_, ?_⟩ <;>
    simp [hasKey, encodeFilter, encodeFilterFields, any_optField,
      Option.isSome_map]

theorem mem_optField {kv : String × Json} {k : String} {o : Option Json}
    {rest : List (String × Json)} (h : kv ∈ optField k o rest) :
    (∃ j, o = some j ∧ kv = (k, j)) ∨ kv ∈ rest := by
  cases o with
  | none => exact Or.inr h
  | some j =>
    rcases List.mem_cons.mp h with h1 | h2
    · exact Or.inl ⟨j, rfl, h1⟩
    · exact Or.inr h2

theorem encodeFilterFields_not_null (f : Filter) :
    ∀ kv ∈ encodeFilterFields f, kv.2 ≠ .null := by
  intro kv h
  simp only [encodeFilterFields] at h
  rcases mem_optField h with ⟨j, hj, rfl⟩ | h
  · rcases Option.map_eq_some'.mp hj with ⟨v, _, rfl⟩
    simp [encodeStringList]
  rcases mem_optField h with ⟨j, hj, rfl⟩ | h
  · rcases Option.map_eq_some'.mp hj with ⟨v, _, rfl⟩
    simp [encodeStringList]
  rcases mem_optField h with ⟨j, hj, rfl⟩ | h
  · rcases Option.map_eq_some'.mp hj with ⟨v, _, rfl⟩
    simp [encodeNatList]
  rcases mem_optField h with ⟨j, hj, rfl⟩ | h
  · rcases Option.map_eq_some'.mp hj with ⟨v, _, rfl⟩
    simp [encodeStringList]
  rcases mem_optField h with ⟨j, hj, rfl⟩ | h
  · rcases Option.map_eq_some'.mp hj with ⟨v, _, rfl⟩
    simp [encodeStringList]
  rcases mem_optField h with ⟨j, hj, rfl⟩ | h
  · rcases Option.map_eq_some'.mp hj with ⟨v, _, rfl⟩
    simp
  rcases mem_optField h with ⟨j, hj, rfl⟩ | h
  · rcases Option.map_eq_some'.mp hj with ⟨v, _, rfl⟩
    simp
  rcases mem_optField h with ⟨j, hj, rfl⟩ | h
  · rcases Option.map_eq_some'.mp hj with ⟨v, _, rfl⟩
    simp
  simp at h

/-- C4: decoding the encoding of any legally constructed client message
(REQ, EVENT, CLOSE) or server message (EVENT, OK, EOSE, CLOSED, NOTICE)
yields the original message, and the encoding of a `Filter` carries a key
for exactly the fields that are set — an unset field's key is absent (in
particular it is never emitted as a null value: no value in the encoded
field list is JSON `null`). -/
theorem C4_codec_round_trip :
    (∀ m : ClientMessage, clientWF m = true →
        decodeClientJ (encodeClientMessage m) = .ok m) ∧
    (∀ m : ServerMessage, serverWF m = true →
        decodeServerJ (encodeServerMessage m) = .ok m) ∧
    (∀ f : Filter,
        (hasKey (encodeFilter f) "ids" = f.ids.isSome ∧
         hasKey (encodeFilter f) "authors" = f.authors.isSome ∧
         hasKey (encodeFilter f) "kinds" = f.kinds.isSome ∧
         hasKey (encodeFilter f) "#e" = f.e_tags.isSome ∧
         hasKey (encodeFilter f) "#p" = f.p_tags.isSome ∧
         hasKey (encodeFilter f) "since" = f.since.isSome ∧
         hasKey (encodeFilter f) "until" = f.until_.isSome ∧
         hasKey (encodeFilter f) "limit" = f.limit.isSome) ∧
        ∀ kv ∈ encodeFilterFields f, kv.2 ≠ .null) :=
  ⟨decodeClientJ_enc, decodeServerJ_enc,
   fun f => ⟨hasKey_encodeFilter f, encodeFilterFields_not_null f⟩⟩

/-- C4 witness: the round trip evaluated at one concrete REQ and one
concrete OK message, with the well-formedness hypotheses discharged by
computation. -/
theorem C4_codec_round_trip_witness :
    clientWF (.req ⟨"sub1", ⟨some ["a"], none, some [1], none, none,
        some 5, none, some 10⟩⟩) = true ∧
    decodeClientJ (encodeClientMessage (.req ⟨"sub1", ⟨some ["a"], none,
        some [1], none, none, some 5, none, some 10⟩⟩)) =
      .ok (.req ⟨"sub1", ⟨some ["a"], none, some [1], none, none,
        some 5, none, some 10⟩⟩) ∧
    decodeServerJ (encodeServerMessage (.ok ⟨"ev1", true, ""⟩)) =
      .ok (.ok ⟨"ev1", true, ""⟩) :=
  ⟨rfl,
   C4_codec_round_trip.1 (.req ⟨"sub1", ⟨some ["a"], none, some [1], none,
     none, some 5, none, some 10⟩⟩) rfl,
   C4_codec_round_trip.2.1 (.ok ⟨"ev1", true, ""⟩) rfl⟩

/-! ## Claims about the dispatch and fan-out paths -/

/-- C1: the spec requires each matching delivery to be enqueued onto the
subscription's *owning* connection's outbound queue, and a connection with
no matching subscription to receive nothing.  The code violates this:
`process_event_message` sends every delivery through `message_sender` —
the queue of the connection the `EVENT` arrived on — and never uses
`s.sender`.  Concretely: connection `connB` holds the one subscription,
its filter matches the event, the `EVENT` is dispatched on `connA`; the
resulting enqueues are the `OK` *and the delivery* on `connA`'s queue,
and `connB` receives nothing. -/
theorem C1_fanout_misdirected :
    match_event ⟨"id1", "pk1", 5, .textNote, [["e1", "p1"]], "hello", "sg"⟩
      ⟨none, none, none, some ["e1"], some ["p1"], none, none, none⟩ = true ∧
    process_event_message
        ⟨"id1", "pk1", 5, .textNote, [["e1", "p1"]], "hello", "sg"⟩
        [("connB", [⟨"connB", "connB", "s1",
          ⟨none, none, none, some ["e1"], some ["p1"], none, none, none⟩⟩])]
        "connA" =
      [("connA", encodeServerMessage (.ok ⟨"id1", true, ""⟩)),
       ("connA", encodeEvent
         ⟨"id1", "pk1", 5, .textNote, [["e1", "p1"]], "hello", "sg"⟩)] :=
  ⟨rfl, rfl⟩

/-- C2: the spec says every unset filter field contributes `true` to the
match and that the empty filter matches every event.  The code violates
this for the tag fields: `filter.e_tags.iter().any(..)` over a `None`
option is `any` over an empty iterator, which is `false`, so `match_event`
rejects every event whenever `e_tags` (or `p_tags`) is unset.  Evaluated
at the failing input: the empty filter (`Filter::new`) matches nothing,
and even a filter constraining only `kinds` to the event's own kind
matches nothing. -/
theorem C2_unset_tag_fields_reject :
    match_event ⟨"id1", "pk1", 5, .textNote, [["e1", "p1"]], "hello", "sg"⟩
      Filter.new = false ∧
    match_event ⟨"id1", "pk1", 5, .textNote, [["e1", "p1"]], "hello", "sg"⟩
      ⟨none, none, some [1], none, none, none, none, none⟩ = false :=
  ⟨rfl, rfl⟩

theorem innerBind_panicked {α β : Type} (f : α → Inner β) :
    innerBind (Inner.panicked : Inner α) f = .panicked := rfl

theorem filterMap_const_replicate {α β : Type} (f : α → Option β) (c : β)
    (h : ∀ a, f a = none ∨ f a = some c) (l : List α) :
    ∃ k, l.filterMap f = List.replicate k c := by
  induction l with
  | nil => exact ⟨0, rfl⟩
  | cons x xs ih =>
    obtain ⟨k, hk⟩ := ih
    rcases h x with hx | hx
    · exact ⟨k, by simp [List.filterMap_cons, hx, hk]⟩
    · exact ⟨k + 1, by simp [List.filterMap_cons, hx, hk, List.replicate]⟩

/-- C6: on every `EVENT` dispatch the first enqueue — before any fan-out
delivery — is exactly one `OK` with the event's id, `accepted = true` and
an empty message, addressed to the originating connection's queue; this
happens for *every* event (no signature check: `e.sig` is universally
quantified and never inspected) and for every registry (no matching
subscription is required).  Every later enqueue is a raw-event delivery,
which is never shaped like an `OK` message, so the `OK` is unique. -/
theorem C6_unconditional_ok_first (e : Event) (regs : Registry)
    (who : String) :
    (process_event_message e regs who).head? =
      some (who, encodeServerMessage (.ok ⟨e.id, true, ""⟩)) ∧
    (∃ k, (process_event_message e regs who).tail =
      List.replicate k (who, encodeEvent e)) ∧
    ∀ o : ServerOk, encodeEvent e ≠ encodeServerMessage (.ok o) := by
  refine ⟨rfl, ?_, ?_⟩
  · simp only [process_event_message, List.tail_cons]
    refine filterMap_const_replicate _ _ ?_ _
    intro s
    by_cases hm : match_event e s.filter = true
    · exact Or.inr (by simp [hm])
    · exact Or.inl (by simp [hm])
  · intro o
    simp [encodeEvent, encodeServerMessage]

/-- C6 witness: the theorem evaluated at a concrete event, an empty
registry and a concrete originating connection. -/
theorem C6_unconditional_ok_first_witness :
    (process_event_message ⟨"idW", "pkW", 1, .textNote, [], "c", "s"⟩ []
        "connA").head? =
      some ("connA", encodeServerMessage (.ok ⟨"idW", true, ""⟩)) :=
  (C6_unconditional_ok_first ⟨"idW", "pkW", 1, .textNote, [], "c", "s"⟩ []
    "connA").1

/-! ## Claims about the `EventKind` panic (C10) -/

/-- The derived `Event` encoding with the `kind` slot holding an arbitrary
`u16` value `k` instead of a legal `EventKind` — the wire shape a remote
client is free to send. -/
def encodeEventKindRaw (e : Event) (k : Nat) : Json :=
  .obj [("id", .str e.id), ("pubkey", .str e.pubkey),
        ("created_at", .num e.created_at),
        ("kind", .num (k : Int)),
        ("tags", encodeTags e.tags),
        ("content", .str e.content), ("sig", .str e.sig)]

theorem eventStep_kind_panics (i pk : Option String) (ca : Option Int)
    (tg : Option (List (List String))) (ct sg : Option String) (k : Nat)
    (h2 : k < 65536) (h3 : k ≠ 0) (h4 : k ≠ 1) :
    eventStep ⟨i, pk, ca, none, tg, ct, sg⟩ ("kind", .num (k : Int)) =
      .panicked := by
  have hd : decodeU16 (.num (k : Int)) = some k := by
    simp [decodeU16]
    omega
  simp [eventStep, hd, eventKindFromU16, h3, h4]

/-- C10: a well-typed `u16` kind other than 0 or 1 drives
`From<u16> for EventKind` into its `panic!` arm, so deserializing an
`Event` — and therefore an `EVENT` client message — whose `kind` field
holds such a value panics instead of returning a decode error: the
conversion, and with it message decoding, is not total over well-typed
JSON inputs. -/
theorem C10_kind_decode_panics (e : Event) (k : Nat)
    (h1 : eventWF e = true) (h2 : k < 65536) (h3 : k ≠ 0) (h4 : k ≠ 1) :
    eventKindFromU16 k = .panicked ∧
    decodeEventI (encodeEventKindRaw e k) = .panicked ∧
    decodeClientJ (.arr [.str "EVENT", encodeEventKindRaw e k]) =
      .panicked := by
  have hkind : eventKindFromU16 k = .panicked := by
    simp [eventKindFromU16, h3, h4]
  have hev : decodeEventI (encodeEventKindRaw e k) = .panicked := by
    obtain ⟨id, pk, ca, kd, tg, ct, sg⟩ := e
    have hca : i64Range ca = true := h1
    simp only [decodeEventI, encodeEventKindRaw]
    rw [eventFold, ESlots.empty, eventStep_id, innerBind_ok]
    rw [eventFold, eventStep_pubkey, innerBind_ok]
    rw [eventFold, eventStep_created_at _ _ _ _ _ _ ca hca, innerBind_ok]
    rw [eventFold, eventStep_kind_panics _ _ _ _ _ _ k h2 h3 h4,
      innerBind_panicked]
  refine ⟨hkind, hev, ?_⟩
  show decodeEventTail [encodeEventKindRaw e k] = .panicked
  rw [decodeEventTail, hev]

/-- C10 witness: kind 2 panics, evaluated at a concrete event object. -/
theorem C10_kind_decode_panics_witness :
    eventKindFromU16 2 = .panicked ∧
    decodeClientJ (.arr [.str "EVENT",
      encodeEventKindRaw ⟨"idW", "pkW", 1, .textNote, [], "c", "s"⟩ 2]) =
      .panicked :=
  ⟨(C10_kind_decode_panics ⟨"idW", "pkW", 1, .textNote, [], "c", "s"⟩ 2
      rfl (by decide) (by decide) (by decide)).1,
   (C10_kind_decode_panics ⟨"idW", "pkW", 1, .textNote, [], "c", "s"⟩ 2
      rfl (by decide) (by decide) (by decide)).2.2⟩

/-! ## Registry lemmas (REQ and CLOSE paths) -/

theorem regLookup_mapAppend (regs : Registry) (who : String)
    (s : Subscriber) :
    regLookup (regs.map (fun kv =>
        if kv.1 = who then (kv.1, kv.2 ++ [s]) else kv)) who =
      (regLookup regs who).map (fun subs => subs ++ [s]) := by
  induction regs with
  | nil => rfl
  | cons kv rest ih =>
    by_cases hk : kv.1 = who
    · simp [regLookup, hk, ih]
    · simp [regLookup, hk, ih]

theorem regLookup_mapAppend_ne (regs : Registry) (who who2 : String)
    (h : who2 ≠ who) (s : Subscriber) :
    regLookup (regs.map (fun kv =>
        if kv.1 = who then (kv.1, kv.2 ++ [s]) else kv)) who2 =
      regLookup regs who2 := by
  induction regs with
  | nil => rfl
  | cons kv rest ih =>
    have hw : ¬(who = who2) := fun hx => h hx.symm
    by_cases hk : kv.1 = who
    · simp [regLookup, hk, hw, ih]
    · by_cases hk2 : kv.1 = who2
      · simp [regLookup, hk, hk2, h]
      · simp [regLookup, hk, hk2, ih]

theorem regLookup_append_single_self (regs : Registry) (who : String)
    (l : List Subscriber) (h : regLookup regs who = none) :
    regLookup (regs ++ [(who, l)]) who = some l := by
  induction regs with
  | nil => simp [regLookup]
  | cons kv rest ih =>
    by_cases hk : kv.1 = who
    · simp [regLookup, hk] at h
    · simp only [regLookup, hk] at h
      simp [regLookup, hk, ih h]

theorem regLookup_append_single_ne (regs : Registry) (who who2 : String)
    (h : who2 ≠ who) (l : List Subscriber) :
    regLookup (regs ++ [(who, l)]) who2 = regLookup regs who2 := by
  induction regs with
  | nil =>
    have : ¬(who = who2) := fun hx => h hx.symm
    simp [regLookup, this]
  | cons kv rest ih =>
    by_cases hk : kv.1 = who2
    · simp [regLookup, hk]
    · simp [regLookup, hk, ih]

theorem registryEntryPush_self (regs : Registry) (who : String)
    (s : Subscriber) :
    regLookup (registryEntryPush regs who s) who =
      some ((regLookup regs who).getD [] ++ [s]) := by
  unfold registryEntryPush
  by_cases h : (regLookup regs who).isSome
  · obtain ⟨subs, hsubs⟩ := Option.isSome_iff_exists.mp h
    simp [h, regLookup_mapAppend, hsubs]
  · have hn : regLookup regs who = none := Option.not_isSome_iff_eq_none.mp h
    simp [h, regLookup_append_single_self regs who [s] hn, hn]

theorem registryEntryPush_ne (regs : Registry) (who who2 : String)
    (h : who2 ≠ who) (s : Subscriber) :
    regLookup (registryEntryPush regs who s) who2 = regLookup regs who2 := by
  unfold registryEntryPush
  by_cases hs : (regLookup regs who).isSome
  · simp [hs, regLookup_mapAppend_ne regs who who2 h]
  · simp [hs, regLookup_append_single_ne regs who who2 h]

/-- C9: `REQ(id, filter)` appends a subscription carrying exactly that id
and filter to the dispatching connection's registry entry (created when
absent), leaves every other connection's entry untouched, enqueues no
message at all (no `EOSE`, no `OK`), and a repeated `REQ` with the same
subscription id appends a second entry after the first instead of
replacing it. -/
theorem C9_req_appends (req : Req) (regs : Registry) (who : String) :
    (process_req_message req regs who).2 = [] ∧
    regLookup (process_req_message req regs who).1 who =
      some ((regLookup regs who).getD [] ++
        [⟨who, who, req.id, req.filter⟩]) ∧
    (∀ who2, who2 ≠ who →
      regLookup (process_req_message req regs who).1 who2 =
        regLookup regs who2) ∧
    ∀ req2 : Req,
      regLookup (process_req_message req2
          (process_req_message req regs who).1 who).1 who =
        some ((regLookup regs who).getD [] ++
          [⟨who, who, req.id, req.filter⟩,
           ⟨who, who, req2.id, req2.filter⟩]) := by
  refine ⟨rfl, registryEntryPush_self regs who _,
    fun who2 h => registryEntryPush_ne regs who who2 h _, fun req2 => ?_⟩
  show regLookup (registryEntryPush (registryEntryPush regs who
    ⟨who, who, req.id, req.filter⟩) who ⟨who, who, req2.id, req2.filter⟩)
    who = _
  rw [registryEntryPush_self, registryEntryPush_self]
  simp

/-- C9 witness: two REQs with the same subscription id on one connection,
evaluated on the empty registry: both subscriptions are present, in
order. -/
theorem C9_req_appends_witness :
    ("connB" : String) ≠ "connA" ∧
    regLookup (process_req_message ⟨"s1", Filter.new⟩ [] "connA").1
      "connB" = regLookup ([] : Registry) "connB" ∧
    regLookup (process_req_message ⟨"s1", Filter.new⟩
        (process_req_message ⟨"s1", Filter.new⟩ [] "connA").1 "connA").1
      "connA" =
      some [⟨"connA", "connA", "s1", Filter.new⟩,
            ⟨"connA", "connA", "s1", Filter.new⟩] :=
  ⟨by decide,
   (C9_req_appends ⟨"s1", Filter.new⟩ [] "connA").2.2.1 "connB" (by decide),
   (C9_req_appends ⟨"s1", Filter.new⟩ [] "connA").2.2.2 ⟨"s1", Filter.new⟩⟩

/-- C8: `CLOSE(id)` filters the dispatching connection's subscriber list
by id, leaves every other connection's list (even one holding the same
subscription id) untouched, and is a registry no-op when no subscription
of the dispatching connection carries the id. -/
theorem C8_close_scoped (id : String) (regs : Registry) (who : String) :
    (∀ who2, who2 ≠ who →
      regLookup (process_close_message id regs who) who2 =
        regLookup regs who2) ∧
    regLookup (process_close_message id regs who) who =
      (regLookup regs who).map
        (fun subs => subs.filter (fun s => s.id ≠ id)) ∧
    ((∀ kv ∈ regs, kv.1 = who → ∀ s ∈ kv.2, s.id ≠ id) →
      process_close_message id regs who = regs) := by
  refine ⟨?_, ?_, ?_⟩
  · intro who2 h
    induction regs with
    | nil => rfl
    | cons kv rest ih =>
      have hw : ¬(who = who2) := fun hx => h hx.symm
      by_cases hk : kv.1 = who
      · simp [process_close_message, regLookup, hk, hw] at ih ⊢
        exact ih
      · by_cases hk2 : kv.1 = who2
        · simp [process_close_message, regLookup, hk, hk2, h]
        · simp [process_close_message, regLookup, hk, hk2] at ih ⊢
          exact ih
  · induction regs with
    | nil => rfl
    | cons kv rest ih =>
      by_cases hk : kv.1 = who
      · simp [process_close_message, regLookup, hk]
      · simp [process_close_message, regLookup, hk] at ih ⊢
        exact ih
  · intro h
    induction regs with
    | nil => rfl
    | cons kv rest ih =>
      have hrest : process_close_message id rest who = rest :=
        ih (fun kv2 h2 => h kv2 (List.mem_cons_of_mem kv h2))
      have h1 : (if kv.1 = who then
          (kv.1, kv.2.filter (fun s => s.id ≠ id)) else kv) = kv := by
        by_cases hk : kv.1 = who
        · rw [if_pos hk]
          have h2 : kv.2.filter (fun s => s.id ≠ id) = kv.2 :=
            List.filter_eq_self.mpr (fun s hs => by
              simpa using h kv (List.mem_cons_self kv rest) hk s hs)
          rw [h2]
        · rw [if_neg hk]
      calc process_close_message id (kv :: rest) who
          = (if kv.1 = who then
              (kv.1, kv.2.filter (fun s => s.id ≠ id)) else kv) ::
            process_close_message id rest who := rfl
        _ = kv :: rest := by rw [h1, hrest]

/-- C8 witness: closing `s1` on `connA` removes `connA`'s subscription
with that id, does not touch `connB`'s subscription registered under the
same id, and closing a non-registered id is a registry no-op. -/
theorem C8_close_scoped_witness :
    ("connB" : String) ≠ "connA" ∧
    regLookup (process_close_message "s1"
        [("connA", [⟨"connA", "connA", "s1", Filter.new⟩]),
         ("connB", [⟨"connB", "connB", "s1", Filter.new⟩])] "connA")
      "connB" = some [⟨"connB", "connB", "s1", Filter.new⟩] ∧
    process_close_message "nope"
        [("connA", [⟨"connA", "connA", "s1", Filter.new⟩])] "connA" =
      [("connA", [⟨"connA", "connA", "s1", Filter.new⟩])] := by
  refine ⟨by decide, ?_, ?_⟩
  · have h := (C8_close_scoped "s1"
      [("connA", [⟨"connA", "connA", "s1", Filter.new⟩]),
       ("connB", [⟨"connB", "connB", "s1", Filter.new⟩])] "connA").1
      "connB" (by decide)
    rw [h]
    rfl
  · exact (C8_close_scoped "nope"
      [("connA", [⟨"connA", "connA", "s1", Filter.new⟩])] "connA").2.2
      (by
        intro kv hkv hk s hs
        simp at hkv
        subst hkv
        simp at hs
        subst hs
        decide)

/-! ## Strict decoding (C5) -/

/-- C5: client-message decoding is strict.  (a) An array whose first
element is a string other than the three recognized tags fails with
`unknownKind` (`de::Error::custom("unknown message kind")`).  (b) For a
recognized tag, a missing element or an ill-typed element at payload
position p fails with `malformed p`, mirroring the hard-coded
`invalid_length(1, ..)` / `invalid_length(2, ..)` positions and the serde
type errors raised while reading that element: REQ requires a string at 1
and a filter object at 2, EVENT an event object at 1, CLOSE a string at 1.
(c) A failed decode leaves the registry untouched and enqueues nothing:
`process_nostr_message` returns the error before any state is read or
written. -/
theorem C5_strict_decode :
    (∀ (t : String) (rest : List Json),
      ¬(t = "REQ" ∨ t = "EVENT" ∨ t = "CLOSE") →
      decodeClientJ (.arr (.str t :: rest)) = .err .unknownKind) ∧
    (decodeClientJ (.arr [.str "REQ"]) = .err (.malformed 1) ∧
     (∀ (j : Json) (rest : List Json), asStr j = none →
       decodeClientJ (.arr (.str "REQ" :: j :: rest)) =
         .err (.malformed 1)) ∧
     (∀ id : String, decodeClientJ (.arr [.str "REQ", .str id]) =
       .err (.malformed 2)) ∧
     (∀ (id : String) (j : Json) (rest : List Json),
       decodeFilterI j = none →
       decodeClientJ (.arr (.str "REQ" :: .str id :: j :: rest)) =
         .err (.malformed 2)) ∧
     decodeClientJ (.arr [.str "EVENT"]) = .err (.malformed 1) ∧
     (∀ (j : Json) (rest : List Json), decodeEventI j = .fail →
       decodeClientJ (.arr (.str "EVENT" :: j :: rest)) =
         .err (.malformed 1)) ∧
     decodeClientJ (.arr [.str "CLOSE"]) = .err (.malformed 1) ∧
     (∀ (j : Json) (rest : List Json), asStr j = none →
       decodeClientJ (.arr (.str "CLOSE" :: j :: rest)) =
         .err (.malformed 1))) ∧
    (∀ (j : Json) (regs : Registry) (who : String) (e : DecodeError),
      decodeClientJ j = .err e →
      process_nostr_message j regs who = .normal regs []) := by
  refine ⟨?_, ⟨rfl, ?_, ?_, ?_, rfl, ?_, rfl, ?_⟩, ?_⟩
  · intro t rest h
    push_neg at h
    obtain ⟨h1, h2, h3⟩ := h
    simp only [decodeClientJ, asStr]
    rw [if_neg h1, if_neg h2, if_neg h3]
  · intro j rest h
    show decodeReqTail (j :: rest) = .err (.malformed 1)
    rw [decodeReqTail, h]
  · intro id
    rfl
  · intro id j rest h
    show decodeReqTail (.str id :: j :: rest) = .err (.malformed 2)
    rw [decodeReqTail]
    dsimp only [asStr]
    rw [h]
  · intro j rest h
    show decodeEventTail (j :: rest) = .err (.malformed 1)
    rw [decodeEventTail, h]
  · intro j rest h
    show decodeCloseTail (j :: rest) = .err (.malformed 1)
    rw [decodeCloseTail, h]
  · intro j regs who e h
    simp only [process_nostr_message, h]

/-- C5 witness: an unknown tag, an ill-typed CLOSE payload and the
no-mutation conclusion, all at concrete inputs. -/
theorem C5_strict_decode_witness :
    ¬(("XYZ" : String) = "REQ" ∨ ("XYZ" : String) = "EVENT" ∨
        ("XYZ" : String) = "CLOSE") ∧
    decodeClientJ (.arr [.str "XYZ"]) = .err .unknownKind ∧
    asStr (.num 0) = none ∧
    decodeClientJ (.arr [.str "CLOSE", .num 0]) = .err (.malformed 1) ∧
    process_nostr_message (.arr [.str "XYZ"])
        [("connA", [⟨"connA", "connA", "s1", Filter.new⟩])] "connA" =
      .normal [("connA", [⟨"connA", "connA", "s1", Filter.new⟩])] [] := by
  refine ⟨by decide, ?_, rfl, ?_, ?_⟩
  · exact C5_strict_decode.1 "XYZ" [] (by decide)
  · exact C5_strict_decode.2.1.2.2.2.2.2.2.2 (.num 0) [] rfl
  · exact C5_strict_decode.2.2 (.arr [.str "XYZ"])
      [("connA", [⟨"connA", "connA", "s1", Filter.new⟩])] "connA"
      .unknownKind (C5_strict_decode.1 "XYZ" [] (by decide))

/-! ## Signing claims (C7) -/

/-- C7 counterexample: the spec claims `sign` *fails with the error*
`InvalidKey` when the secret key is not a valid scalar.  At the concrete
input below the secret key decodes to the zero scalar — not a valid
secret key — yet `sign` panics (`unwrap` on `SecretKey::parse_slice`);
it does not return an `InvalidKey` error value, and indeed `NostrError`
(src/error.rs) has no such variant to return. -/
theorem C7_sign_counterexample :
    secretKeyOk (List.replicate 32 0) = false ∧
    hexDecode
      "0000000000000000000000000000000000000000000000000000000000000000" =
      some (List.replicate 32 0) ∧
    sign (fun _ _ => [])
      "0000000000000000000000000000000000000000000000000000000000000000"
      "0000000000000000000000000000000000000000000000000000000000000000" =
      .panicked ∧
    (SignOutcome.panicked ≠ .err .invalidKey) := by
  refine ⟨by decide, by decide, by decide, by decide⟩

/-- C7 amended: `sign` never returns an error value; it panics whenever
the secret key does not hex-decode, decodes to an invalid scalar (wrong
length, zero, or at least the group order), or the id does not hex-decode
to exactly 32 bytes; on valid inputs it returns the lowercase-hex
encoding of the raw signature bytes. -/
theorem C7_sign_amended (raw : List Nat → List Nat → List Nat)
    (idHex skHex : String) :
    ((hexDecode skHex).isNone → sign raw idHex skHex = .panicked) ∧
    (∀ kb, hexDecode skHex = some kb → secretKeyOk kb = false →
      sign raw idHex skHex = .panicked) ∧
    (∀ kb, hexDecode skHex = some kb → secretKeyOk kb = true →
      (hexDecode idHex).isNone → sign raw idHex skHex = .panicked) ∧
    (∀ kb ib, hexDecode skHex = some kb → secretKeyOk kb = true →
      hexDecode idHex = some ib → ib.length ≠ 32 →
      sign raw idHex skHex = .panicked) ∧
    (∀ kb ib, hexDecode skHex = some kb → secretKeyOk kb = true →
      hexDecode idHex = some ib → ib.length = 32 →
      sign raw idHex skHex = .ok (hexEncode (raw ib kb))) := by
  refine ⟨?_, ?_, ?_, ?_, ?_⟩
  · intro h
    rw [sign, Option.isNone_iff_eq_none.mp h]
  · intro kb hkb hbad
    rw [sign, hkb]
    simp [hbad]
  · intro kb hkb hok h
    rw [sign, hkb]
    simp [hok, Option.isNone_iff_eq_none.mp h]
  · intro kb ib hkb hok hib hlen
    rw [sign, hkb]
    simp [hok, hib, hlen]
  · intro kb ib hkb hok hib hlen
    rw [sign, hkb]
    simp [hok, hib, hlen]

/-- C7 witness: the amended theorem evaluated at the secret key 1 (a valid
scalar) and a 32-byte id, with every hypothesis computed. -/
theorem C7_sign_amended_witness :
    hexDecode
      "0000000000000000000000000000000000000000000000000000000000000001" =
      some (List.replicate 31 0 ++ [1]) ∧
    secretKeyOk (List.replicate 31 0 ++ [1]) = true ∧
    sign (fun _ _ => [])
      "0000000000000000000000000000000000000000000000000000000000000000"
      "0000000000000000000000000000000000000000000000000000000000000001" =
      .ok (hexEncode []) :=
  ⟨by decide, by decide,
   (C7_sign_amended (fun _ _ => [])
      "0000000000000000000000000000000000000000000000000000000000000000"
      "0000000000000000000000000000000000000000000000000000000000000001").2.2.2.2
     (List.replicate 31 0 ++ [1]) (List.replicate 32 0)
     (by decide) (by decide) (by decide) (by decide)⟩

/-! ## Event-id serialization claims (C3) -/

/-- No character of the string requires JSON escaping: serde_json renders
it verbatim. -/
def noEscape (s : String) : Bool :=
  s.data.all (fun c => escapeChar c == [c])

theorem strData_append (s t : String) : (s ++ t).data = s.data ++ t.data := by
  cases s
  cases t
  rfl

theorem strExt {s t : String} (h : s.data = t.data) : s = t := by
  cases s
  cases t
  exact congrArg String.mk h

theorem escapeList_id (l : List Char) (h : ∀ c ∈ l, escapeChar c = [c]) :
    escapeList l = l := by
  induction l with
  | nil => rfl
  | cons c rest ih =>
    rw [escapeList, h c (by simp), ih (fun c2 hc => h c2 (by simp [hc]))]
    rfl

theorem renderString_plain (s : String) (h : noEscape s = true) :
    renderString s = "\"" ++ s ++ "\"" := by
  have hall : ∀ c ∈ s.data, escapeChar c = [c] := by
    intro c hc
    have := List.all_eq_true.mp h c hc
    simpa using this
  apply strExt
  rw [renderString, escapeList_id s.data hall, strData_append, strData_append]
  rfl

/-- C3 amended: the id computed by `UnsignedEvent::new` is the
lowercase-hex SHA-256 of the `format!` splice `serialized_event`, in
which `pubkey` and `content` are interpolated verbatim; whenever neither
string contains a character that JSON escaping would alter, that splice
coincides with the spec's canonical JSON-array serialization, so the id
equals the digest of the canonical 6-tuple.  (Determinism is immediate:
`computeId` is a function of exactly its five arguments.) -/
theorem C3_computeId_canonical_when_plain (pubkey content : String)
    (created_at : Int) (kind : EventKind) (tags : List (List String))
    (h1 : noEscape pubkey = true) (h2 : noEscape content = true) :
    serialized_event pubkey created_at kind tags content =
      canonicalSerialization pubkey created_at kind tags content ∧
    computeId pubkey created_at kind tags content =
      hexEncode (sha256 (utf8Str
        (canonicalSerialization pubkey created_at kind tags content))) := by
  have hs : serialized_event pubkey created_at kind tags content =
      canonicalSerialization pubkey created_at kind tags content := by
    rw [serialized_event, canonicalSerialization,
      renderString_plain pubkey h1, renderString_plain content h2]
    apply strExt
    simp only [strData_append, List.append_assoc, List.cons_append,
      List.nil_append, List.singleton_append]
  exact ⟨hs, by rw [computeId, hs]⟩

/-- C3 counterexample: for a content consisting of one double-quote
character, the computed id is *not* the digest of the canonical JSON
array `[0, pubkey, created_at, kind, tags, content]`: the `format!`
splice produces `[0,"aa",1,1,[],"""]` (not even valid JSON) while the
canonical serialization is `[0,"aa",1,1,[],"\""]`, and the two SHA-256
digests differ. -/
theorem C3_computeId_counterexample :
    serialized_event "aa" 1 .textNote [] "\"" ≠
      canonicalSerialization "aa" 1 .textNote [] "\"" ∧
    computeId "aa" 1 .textNote [] "\"" ≠
      hexEncode (sha256 (utf8Str
        (canonicalSerialization "aa" 1 .textNote [] "\""))) := by
  refine ⟨by decide, by decide⟩

/-- C3 witness: the amended theorem at a concrete plain pubkey and
content. -/
theorem C3_computeId_canonical_witness :
    noEscape "aa" = true ∧ noEscape "hi" = true ∧
    computeId "aa" 1 .textNote [["t"]] "hi" =
      hexEncode (sha256 (utf8Str
        (canonicalSerialization "aa" 1 .textNote [["t"]] "hi"))) :=
  ⟨by decide, by decide,
   (C3_computeId_canonical_when_plain "aa" "hi" 1 .textNote [["t"]]
     (by decide) (by decide)).2⟩

set_option maxRecDepth 8192 in
/-- The model reproduces the repository's own pinned id
(`data_provider_event` in src/message.rs tests): the event built there
from this pubkey, `created_at = 1708838939`, kind `TextNote`, tags
`[["tag"]]` and content `"content"` carries exactly this id, which
validates the SHA-256 implementation and the serialization model
end to end. -/
theorem computeId_matches_repo_test :
    computeId
      "5e60b5429c2fde23b7b6df434869ad71d2c9403a3a9f7a2a629623491e477334"
      1708838939 .textNote [["tag"]] "content" =
    "8b0a64c96cd09a3a86c0a225606f0b57a7fec7bf3773c68af13420c1d8d57f97" := by
  decide

end Nostr
